import Mathlib

/-!
Verification of the HygieneLINK demand-forecasting and inventory-optimization
core (`app/services/sarimax_forecasting.py` and
`app/services/inventory_optimization.py`) via a shallow embedding in Lean 4.

Numeric values (Python floats / Decimals) are modelled as rationals `ℚ`.
External library calls (statsmodels SARIMAX fitting, its forecast and
confidence-interval routines) are modelled as oracle parameters: a fit either
yields an AIC value (`some aic`) or raises / lacks the attribute (`none`), and
a holdout-forecast step either yields a list of predictions or raises.
Wall-clock fields (`trained_at`, `calculated_at`, `generated_at`,
`calculation_date`) and the free-text `model_summary` field carry no
algorithmic content and are omitted from the embedded records.
-/

/-- Raw `ConsumptionData` row (`app/models/hygiene_products.py`, lines
176-188): `quantity_consumed` is a non-nullable `Numeric(10,2)` (a Python
`Decimal`), `employee_count` a nullable `Integer`, `special_events` a nullable
`Text`.  The consumption date is modelled as an ordinal day number. -/
structure ConsumptionData where
  consumption_date : ℕ
  quantity_consumed : ℚ
  employee_count : Option ℤ
  special_events : Option String
deriving DecidableEq

/-- The model-metadata dictionary built by `train_sarimax_model`
(`sarimax_forecasting.py`, lines 188-197); `trained_at` and `model_summary`
omitted (wall clock / free text). `best_params` is the pair
`(order, seasonal_order)` = `((p,d,q), (P,D,Q,s))`. -/
structure ModelInfo where
  product_id : String
  facility_id : String
  best_params : (ℕ × ℕ × ℕ) × (ℕ × ℕ × ℕ × ℕ)
  aic : ℚ
  accuracy_score : ℚ
  training_data_points : ℕ
deriving DecidableEq

/-- One entry of a forecast's `predictions` list (`sarimax_forecasting.py`,
lines 366-377); the `date` string and constant `confidence_level = 95` are
carried by the surrounding result. -/
structure PredictionEntry where
  predicted_consumption : ℚ
  lower_bound : ℚ
  upper_bound : ℚ
deriving DecidableEq

/-- The forecast payload cached and returned by `generate_forecast`
(`sarimax_forecasting.py`, lines 360-381), reduced to the fields the claims
read. -/
structure ForecastData where
  product_id : String
  facility_id : String
  forecast_horizon : ℕ
  predictions : List PredictionEntry
  depletion_date : Option String
deriving DecidableEq

/-- Outcome of reading one cache key and trying to decode it, combining
`_get_cache_value` (lines 82-97: a Redis error or absent key yields `None`,
modelled `miss`; the empty string is falsy and also lands in `miss`) with the
subsequent `json.loads`: a non-empty payload that fails to decode is
`corrupt`, a decodable one is `ok`. -/
inductive CacheRead (α : Type) where
  | miss
  | corrupt
  | ok (a : α)
deriving DecidableEq

/-- Typed failures of `train_sarimax_model`: `insufficientData` is the
`ValueError("Insufficient data for training (minimum 30 days required)")` at
lines 114-115, `modelFitting` the `ValueError("Could not fit SARIMAX model
with any parameter combination")` at lines 160-161. -/
inductive TrainError where
  | insufficientData
  | modelFitting
deriving DecidableEq

/-- Typed failures of `generate_forecast`: `modelNotFound` is the
`ValueError("No trained model found ...")` at line 223, `invalidModelInfo`
the `ValueError("Invalid model info in cache")` at line 230, and
`downstream` stands for any failure of the re-query / refit / projection
continuation (lines 232-394). -/
inductive ForecastError where
  | modelNotFound
  | invalidModelInfo
  | downstream
deriving DecidableEq

/-- Day-indexed resampled daily quantities: `prepare_time_series_data`
(lines 27-54) resamples the records to one row per calendar day from the
earliest to the latest record date, each day's `quantity` being the sum of
that day's `quantity_consumed` values (missing days filled with 0).  Only the
`quantity` column is embedded; the exogenous columns feed the fitting oracle
and are not read by any claim. -/
def dailyQuantities (records : List ConsumptionData) : List ℚ :=
  match records with
  | [] => []
  | r :: _ =>
    let dates := records.map (·.consumption_date)
    let lo := dates.foldl min r.consumption_date
    let hi := dates.foldl max r.consumption_date
    (List.range (hi - lo + 1)).map (fun i =>
      ((records.filter (fun x => x.consumption_date = lo + i)).map
        (·.quantity_consumed)).sum)

/-- Machine epsilon of a 64-bit float, `numpy.finfo(float64).eps = 2⁻⁵²`,
used by sklearn's `mean_absolute_percentage_error` to avoid division by
zero. -/
def float64Eps : ℚ := 1 / 2 ^ 52

/-- sklearn `mean_absolute_percentage_error(y_true, y_pred)`: the mean over
the samples of `|y - ŷ| / max(eps, |y|)` (a ratio, not a percentage). -/
def mape (y_true y_pred : List ℚ) : ℚ :=
  (((y_true.zip y_pred).map
    (fun p => |p.1 - p.2| / max float64Eps |p.1|)).sum) / (y_true.length : ℚ)

/-- The fixed SARIMAX candidate grid, `param_combinations`
(`sarimax_forecasting.py`, lines 132-137). -/
def param_combinations : List ((ℕ × ℕ × ℕ) × (ℕ × ℕ × ℕ × ℕ)) :=
  [((1,1,1), (1,1,1,7)),
   ((1,1,2), (1,1,1,7)),
   ((2,1,1), (1,1,1,7)),
   ((1,1,1), (0,1,1,7))]

/-- The grid-search loop body (lines 139-158): `best` starts at `none`
(`best_aic = inf`), a candidate whose fit raises or lacks an `aic` attribute
(`fit c = none`) is skipped, and a fitted candidate replaces the incumbent
exactly when its AIC is strictly smaller (`fitted_model.aic < best_aic`). -/
def searchLoop (fit : (ℕ × ℕ × ℕ) × (ℕ × ℕ × ℕ × ℕ) → Option ℚ) :
    List ((ℕ × ℕ × ℕ) × (ℕ × ℕ × ℕ × ℕ)) →
    Option (((ℕ × ℕ × ℕ) × (ℕ × ℕ × ℕ × ℕ)) × ℚ) →
    Option (((ℕ × ℕ × ℕ) × (ℕ × ℕ × ℕ × ℕ)) × ℚ)
  | [], best => best
  | c :: rest, best =>
    match fit c, best with
    | Option.none, b => searchLoop fit rest b
    | some a, Option.none => searchLoop fit rest (some (c, a))
    | some a, some (c0, a0) =>
      if a < a0 then searchLoop fit rest (some (c, a))
      else searchLoop fit rest (some (c0, a0))

/-- Grid search over the fixed candidate set (lines 126-158). -/
def gridSearch (fit : (ℕ × ℕ × ℕ) × (ℕ × ℕ × ℕ × ℕ) → Option ℚ) :
    Option (((ℕ × ℕ × ℕ) × (ℕ × ℕ × ℕ × ℕ)) × ℚ) :=
  searchLoop fit param_combinations Option.none

/-- `train_sarimax_model` (lines 99-205).  `cached` is the decoded read of
`sarimax_model:{product_id}:{facility_id}` (a decodable hit returns
immediately, lines 103-110; a corrupt payload falls through exactly like a
miss).  `fit` is the statsmodels fitting oracle for one candidate; the
holdout-forecast step (lines 163-178) is the oracle `holdoutForecast`:
`some preds` if `best_model.forecast` returned those predictions, `none` if
it (or the MAPE scoring) raised, in which case accuracy defaults to `0.0`.
`train_size = int(len(df) * 0.8)` and the holdout is the remaining rows.
The best-effort cache write (lines 199-203) has no observable effect on the
returned value and is not embedded. -/
def train_sarimax_model (cached : CacheRead ModelInfo)
    (product_id facility_id : String) (records : List ConsumptionData)
    (fit : (ℕ × ℕ × ℕ) × (ℕ × ℕ × ℕ × ℕ) → Option ℚ)
    (holdoutForecast : Option (List ℚ)) : Except TrainError ModelInfo :=
  match cached with
  | CacheRead.ok m => Except.ok m
  | _ =>
    let df := dailyQuantities records
    if df.length < 30 then Except.error TrainError.insufficientData
    else
      let train_size := df.length * 8 / 10
      let test_data := df.drop train_size
      match gridSearch fit with
      | Option.none => Except.error TrainError.modelFitting
      | some (params, aic) =>
        let accuracy : ℚ :=
          match holdoutForecast with
          | some preds => 100 - mape test_data preds
          | Option.none => 0
        Except.ok
          { product_id := product_id
            facility_id := facility_id
            best_params := params
            aic := aic
            accuracy_score := accuracy
            training_data_points := df.length }

/-- The cache-handling preamble of `generate_forecast` (lines 207-231):
a decodable forecast-cache hit returns immediately; a corrupt forecast
payload falls through like a miss (lines 213-217); then the model-descriptor
key is read: a miss raises `ModelNotFoundError` (line 223) while a payload
that fails to decode (or lacks `best_params`) raises
`ValueError("Invalid model info in cache")` (lines 225-230).  `compute`
abstracts the re-query / refit / projection continuation (lines 232-394). -/
def generate_forecast (forecastCached : CacheRead ForecastData)
    (modelCached : CacheRead ModelInfo)
    (compute : ModelInfo → Except ForecastError ForecastData) :
    Except ForecastError ForecastData :=
  match forecastCached with
  | CacheRead.ok f => Except.ok f
  | _ =>
    match modelCached with
    | CacheRead.miss => Except.error ForecastError.modelNotFound
    | CacheRead.corrupt => Except.error ForecastError.invalidModelInfo
    | CacheRead.ok info => compute info

/-- Source of the confidence interval in `generate_forecast`: the native
path reads `get_prediction(...).conf_int()` rows `(lower, upper)`
(lines 289-311); the fallback path (lines 313-336) builds
`mean ∓ 1.96 * forecast_std` where `forecast_std` is the standard deviation
of the in-sample residuals, or `0.15 *` the historical series' standard
deviation when there are no residuals. -/
inductive IntervalSource where
  | native (ci : List (ℚ × ℚ))
  | fallback (forecast_std : ℚ)

/-- The clamping step of `generate_forecast` (lines 338-352): the predicted
means and both interval bounds are clamped to be non-negative with
`np.maximum(·, 0.0)`.  Returns `(mean, lower_bound, upper_bound)` triples as
assembled into the `predictions` list (lines 366-377). -/
def forecastBounds (means : List ℚ) : IntervalSource → List (ℚ × ℚ × ℚ)
  | IntervalSource.native ci =>
    (means.zip ci).map (fun mc => (max mc.1 0, max mc.2.1 0, max mc.2.2 0))
  | IntervalSource.fallback s =>
    means.map (fun m =>
      (max m 0, max (m - (196/100) * s) 0, max (m + (196/100) * s) 0))

/-- Cumulative sums, `np.cumsum(predicted_consumption)`
(`_calculate_depletion_date`, line 432): entry `i` is the sum of the first
`i + 1` predictions. -/
def cumulativeList (l : List ℚ) : List ℚ :=
  (List.range l.length).map (fun i => (l.take (i + 1)).sum)

/-- First index whose value reaches the stock level:
`np.where(cumulative_consumption >= current_stock)[0]` followed by taking the
first element when the index array is non-empty (lines 433-436). -/
def firstCrossing (current_stock : ℚ) : List ℚ → Option ℕ
  | [] => Option.none
  | c :: rest =>
    if current_stock ≤ c then some 0
    else (firstCrossing current_stock rest).map (· + 1)

/-- `_calculate_depletion_date` (lines 428-438): walk the cumulative sums of
the predicted consumption and return the forecast date at the first index
where the running total reaches or exceeds `current_stock` (default 100.0),
`None` when it never does within the horizon. -/
def calculate_depletion_date (predicted_consumption : List ℚ)
    (forecast_dates : List String) (current_stock : ℚ := 100) :
    Option String :=
  match firstCrossing current_stock (cumulativeList predicted_consumption) with
  | some i => forecast_dates.get? i
  | Option.none => Option.none

/-- Computable floor of a rational, `q.num / q.den` (integer division
rounding towards minus infinity); agrees with `⌊q⌋`. -/
def ratFloorZ (q : ℚ) : ℤ := q.num / q.den

/-- Round-half-to-even on the integers, the rounding rule of Python's
built-in `round`. -/
def roundHalfEven (q : ℚ) : ℤ :=
  if q - ratFloorZ q < 1/2 then ratFloorZ q
  else if 1/2 < q - ratFloorZ q then ratFloorZ q + 1
  else if ratFloorZ q % 2 = 0 then ratFloorZ q else ratFloorZ q + 1

/-- Python `round(x, 2)`: round to two decimal places, ties to even. -/
def pyRound2 (q : ℚ) : ℚ := (roundHalfEven (q * 100) : ℚ) / 100

/-- The reorder-point analysis returned by
`calculate_optimal_reorder_point` (`inventory_optimization.py`,
lines 39-47); `calculated_at` omitted (wall clock). -/
structure ReorderAnalysis where
  product_id : String
  facility_id : String
  reorder_point : ℚ
  lead_time_consumption : ℚ
  safety_stock : ℚ
  service_level : ℕ
deriving DecidableEq

/-- `calculate_optimal_reorder_point` (`inventory_optimization.py`,
lines 14-47).  The service first requests a forecast of horizon
`2 * lead_time_days`; `predictions` is that forecast's `predictions` list.
`lead_time_consumption` sums the predicted means of the first
`lead_time_days` entries, `forecast_variance` sums `(upper - lower) / 3.92`
over the same entries, `safety_stock = 1.65 * forecast_variance`, and
`reorder_point = lead_time_consumption + safety_stock`; the three are
reported rounded to two decimals, alongside `service_level = 95`. -/
def calculate_optimal_reorder_point (product_id facility_id : String)
    (predictions : List PredictionEntry) (lead_time_days : ℕ) :
    ReorderAnalysis :=
  let lead_time_consumption :=
    ((predictions.take lead_time_days).map (·.predicted_consumption)).sum
  let forecast_variance :=
    ((predictions.take lead_time_days).map
      (fun pred => (pred.upper_bound - pred.lower_bound) / (392/100))).sum
  let safety_stock := (165/100) * forecast_variance
  let reorder_point := lead_time_consumption + safety_stock
  { product_id := product_id
    facility_id := facility_id
    reorder_point := pyRound2 reorder_point
    lead_time_consumption := pyRound2 lead_time_consumption
    safety_stock := pyRound2 safety_stock
    service_level := 95 }

/-- The sustainability-metrics payload (`inventory_optimization.py`,
lines 62-69 and 104-111); `calculation_date` omitted (wall clock). -/
structure SustainabilityMetrics where
  total_consumption : ℚ
  consumption_per_employee : ℚ
  waste_reduction_opportunity : ℚ
  potential_savings_percentage : ℚ
  carbon_footprint_kg : ℚ
  sustainability_score : ℚ
deriving DecidableEq

/-- The per-record employee-count conversion in
`generate_sustainability_metrics` (lines 83-87): a `Decimal` is converted
with `float(...)`; otherwise the code evaluates
`float(str(record.employee_count) or 0)`.  The model column is a nullable
`Integer`, so the non-`Decimal` value is an `int` or `None`; `str(None)` is
the truthy string `"None"`, so `float("None")` raises `ValueError` instead
of falling back to `0`. -/
def employeeCountToFloat : Option ℤ → Except String ℚ
  | some n => Except.ok (n : ℚ)
  | Option.none => Except.error "could not convert string to float: None"

/-- `generate_sustainability_metrics` (`inventory_optimization.py`,
lines 58-112).  An empty record set short-circuits to all-zero totals.
Otherwise quantities (non-nullable `Decimal`s) are summed directly, employee
counts go through `employeeCountToFloat` (raising on `None`),
`avg_employees` is the mean employee count, `consumption_per_employee` is
guarded to `0` unless `avg_employees > 0`, the waste opportunity is the 15%
reduction heuristic, and the carbon footprint is `0.1` kg per unit; the
reported figures are rounded to two decimals. -/
def generate_sustainability_metrics (consumption_data : List ConsumptionData) :
    Except String SustainabilityMetrics :=
  match consumption_data with
  | [] =>
    Except.ok
      { total_consumption := 0
        consumption_per_employee := 0
        waste_reduction_opportunity := 0
        potential_savings_percentage := 15
        carbon_footprint_kg := 0
        sustainability_score := 785/10 }
  | _ =>
    (consumption_data.mapM (fun r => employeeCountToFloat r.employee_count)).map
      (fun employee_counts =>
        let total_consumption :=
          (consumption_data.map (·.quantity_consumed)).sum
        let total_employee_count := employee_counts.sum
        let avg_employees :=
          total_employee_count / (consumption_data.length : ℚ)
        let consumption_per_employee :=
          if 0 < avg_employees then total_consumption / avg_employees else 0
        let predicted_optimal := total_consumption * (85/100)
        let waste_reduction_opportunity :=
          total_consumption - predicted_optimal
        let carbon_per_unit : ℚ := 1/10
        let total_carbon_footprint := total_consumption * carbon_per_unit
        { total_consumption := pyRound2 total_consumption
          consumption_per_employee := pyRound2 consumption_per_employee
          waste_reduction_opportunity := pyRound2 waste_reduction_opportunity
          potential_savings_percentage := 15
          carbon_footprint_kg := pyRound2 total_carbon_footprint
          sustainability_score := 785/10 })


/-- Shorthand for a SARIMAX `(order, seasonal_order)` candidate. -/
abbrev SarimaxCand := (ℕ × ℕ × ℕ) × (ℕ × ℕ × ℕ × ℕ)

/-- A synthetic record: one unit consumed on day `d`. -/
def mkRec (d : ℕ) : ConsumptionData :=
  { consumption_date := d, quantity_consumed := 1
    employee_count := some 0, special_events := Option.none }

/-- 30 synthetic records on 30 consecutive days. -/
def recs30 : List ConsumptionData := (List.range 30).map mkRec

/-- 10 synthetic records on 10 consecutive days. -/
def recs10 : List ConsumptionData := (List.range 10).map mkRec

/-- A plausible cached descriptor. -/
def m0 : ModelInfo :=
  { product_id := "p", facility_id := "f"
    best_params := ((1,1,1), (1,1,1,7)), aic := 10
    accuracy_score := 90, training_data_points := 60 }

/-- A cached descriptor whose parameters lie outside the candidate grid. -/
def m_weird : ModelInfo :=
  { product_id := "p", facility_id := "f"
    best_params := ((9,9,9), (9,9,9,9)), aic := 0
    accuracy_score := 0, training_data_points := 0 }



theorem ratFloorZ_eq (q : ℚ) : ratFloorZ q = ⌊q⌋ := Rat.floor_def.symm

theorem roundHalfEven_le_floor_add_one (q : ℚ) : roundHalfEven q ≤ ⌊q⌋ + 1 := by
  unfold roundHalfEven
  rw [ratFloorZ_eq]
  split_ifs <;> omega

theorem floor_le_roundHalfEven (q : ℚ) : ⌊q⌋ ≤ roundHalfEven q := by
  unfold roundHalfEven
  rw [ratFloorZ_eq]
  split_ifs <;> omega

theorem roundHalfEven_mono {x y : ℚ} (h : x ≤ y) :
    roundHalfEven x ≤ roundHalfEven y := by
  have hf : ⌊x⌋ ≤ ⌊y⌋ := Int.floor_le_floor h
  rcases eq_or_lt_of_le hf with hf' | hf'
  · unfold roundHalfEven
    rw [ratFloorZ_eq, ratFloorZ_eq, ← hf']
    have hfx : ((⌊x⌋ : ℤ) : ℚ) = ((⌊y⌋ : ℤ) : ℚ) := by exact_mod_cast hf'
    have hxy : x - ((⌊x⌋ : ℤ) : ℚ) ≤ y - ((⌊x⌋ : ℤ) : ℚ) := by linarith
    split_ifs <;> first | omega | (exfalso; linarith)
  · calc roundHalfEven x ≤ ⌊x⌋ + 1 := roundHalfEven_le_floor_add_one x
      _ ≤ ⌊y⌋ := by omega
      _ ≤ roundHalfEven y := floor_le_roundHalfEven y

theorem pyRound2_mono {x y : ℚ} (h : x ≤ y) : pyRound2 x ≤ pyRound2 y := by
  unfold pyRound2
  have h' : roundHalfEven (x * 100) ≤ roundHalfEven (y * 100) :=
    roundHalfEven_mono (by linarith)
  have h'' : ((roundHalfEven (x * 100) : ℤ) : ℚ) ≤
      ((roundHalfEven (y * 100) : ℤ) : ℚ) := by exact_mod_cast h'
  linarith


theorem searchLoop_eq_none_iff (fit : SarimaxCand → Option ℚ)
    (l : List SarimaxCand) (b : Option (SarimaxCand × ℚ)) :
    searchLoop fit l b = Option.none ↔
      b = Option.none ∧ ∀ c ∈ l, fit c = Option.none := by
  induction l generalizing b with
  | nil => simp [searchLoop]
  | cons c rest ih =>
    cases hc : fit c with
    | none =>
      simp only [searchLoop, hc]
      rw [ih]
      simp [hc]
    | some a =>
      cases b with
      | none =>
        simp only [searchLoop, hc]
        rw [ih]
        simp [hc]
      | some p =>
        obtain ⟨c0, a0⟩ := p
        by_cases hlt : a < a0 <;>
          · simp only [searchLoop, hc, hlt, if_true, if_false]
            rw [ih]
            simp [hc]

theorem searchLoop_eq_some (fit : SarimaxCand → Option ℚ)
    (l : List SarimaxCand) (b : Option (SarimaxCand × ℚ))
    (c : SarimaxCand) (a : ℚ)
    (h : searchLoop fit l b = some (c, a)) :
    (b = some (c, a) ∨ (c ∈ l ∧ fit c = some a)) ∧
      (∀ p, b = some p → a ≤ p.2) ∧
      (∀ c' ∈ l, ∀ a', fit c' = some a' → a ≤ a') := by
  induction l generalizing b with
  | nil =>
    simp only [searchLoop] at h
    refine ⟨Or.inl h, ?_, by simp⟩
    intro p hp
    rw [hp] at h
    injection h with h2
    simp [h2]
  | cons c0 rest ih =>
    cases hc : fit c0 with
    | none =>
      simp only [searchLoop, hc] at h
      obtain ⟨h1, h2, h3⟩ := ih b h
      refine ⟨?_, h2, ?_⟩
      · rcases h1 with h1 | ⟨hm, hfc⟩
        · exact Or.inl h1
        · exact Or.inr ⟨List.mem_cons_of_mem _ hm, hfc⟩
      · intro c' hc' a' hfa'
        rcases List.mem_cons.mp hc' with rfl | hmem
        · rw [hc] at hfa'; cases hfa'
        · exact h3 c' hmem a' hfa'
    | some a0 =>
      cases b with
      | none =>
        simp only [searchLoop, hc] at h
        obtain ⟨h1, h2, h3⟩ := ih _ h
        have ha0 : a ≤ a0 := h2 (c0, a0) rfl
        refine ⟨?_, by simp, ?_⟩
        · rcases h1 with h1 | ⟨hm, hfc⟩
          · simp only [Option.some_inj, Prod.mk.injEq] at h1
            obtain ⟨rfl, rfl⟩ := h1
            exact Or.inr ⟨List.mem_cons_self _ _, hc⟩
          · exact Or.inr ⟨List.mem_cons_of_mem _ hm, hfc⟩
        · intro c' hc' a' hfa'
          rcases List.mem_cons.mp hc' with rfl | hmem
          · rw [hc] at hfa'
            injection hfa' with h''
            rw [← h'']
            exact ha0
          · exact h3 c' hmem a' hfa'
      | some p =>
        obtain ⟨c1, a1⟩ := p
        by_cases hlt : a0 < a1
        · simp only [searchLoop, hc, hlt, if_true] at h
          obtain ⟨h1, h2, h3⟩ := ih _ h
          have ha0 : a ≤ a0 := h2 (c0, a0) rfl
          refine ⟨?_, ?_, ?_⟩
          · rcases h1 with h1 | ⟨hm, hfc⟩
            · simp only [Option.some_inj, Prod.mk.injEq] at h1
              obtain ⟨rfl, rfl⟩ := h1
              exact Or.inr ⟨List.mem_cons_self _ _, hc⟩
            · exact Or.inr ⟨List.mem_cons_of_mem _ hm, hfc⟩
          · intro p hp
            injection hp with hp'
            rw [← hp']
            exact le_trans ha0 (le_of_lt hlt)
          · intro c' hc' a' hfa'
            rcases List.mem_cons.mp hc' with rfl | hmem
            · rw [hc] at hfa'
              injection hfa' with h''
              rw [← h'']
              exact ha0
            · exact h3 c' hmem a' hfa'
        · simp only [searchLoop, hc, hlt, if_false] at h
          obtain ⟨h1, h2, h3⟩ := ih _ h
          have ha1 : a ≤ a1 := h2 (c1, a1) rfl
          have ha0 : a ≤ a0 := le_trans ha1 (not_lt.mp hlt)
          refine ⟨?_, ?_, ?_⟩
          · rcases h1 with h1 | ⟨hm, hfc⟩
            · exact Or.inl h1
            · exact Or.inr ⟨List.mem_cons_of_mem _ hm, hfc⟩
          · intro p hp
            injection hp with hp'
            rw [← hp']
            exact ha1
          · intro c' hc' a' hfa'
            rcases List.mem_cons.mp hc' with rfl | hmem
            · rw [hc] at hfa'
              injection hfa' with h''
              rw [← h'']
              exact ha0
            · exact h3 c' hmem a' hfa'

theorem firstCrossing_eq_none (s : ℚ) (l : List ℚ)
    (h : firstCrossing s l = Option.none) : ∀ c ∈ l, c < s := by
  induction l with
  | nil => simp
  | cons c rest ih =>
    by_cases hs : s ≤ c
    · simp [firstCrossing, hs] at h
    · rw [firstCrossing, if_neg hs] at h
      rw [Option.map_eq_none'] at h
      intro x hx
      rcases List.mem_cons.mp hx with rfl | hmem
      · exact lt_of_not_le hs
      · exact ih h x hmem

theorem firstCrossing_eq_some (s : ℚ) (l : List ℚ) (i : ℕ)
    (h : firstCrossing s l = some i) :
    ∃ c, l.get? i = some c ∧ s ≤ c ∧
      ∀ j < i, ∀ c', l.get? j = some c' → c' < s := by
  induction l generalizing i with
  | nil => cases h
  | cons c rest ih =>
    by_cases hs : s ≤ c
    · rw [firstCrossing, if_pos hs] at h
      injection h with h'
      subst h'
      exact ⟨c, rfl, hs, by omega⟩
    · rw [firstCrossing, if_neg hs] at h
      rw [Option.map_eq_some'] at h
      obtain ⟨i', hi', rfl⟩ := h
      obtain ⟨c', hget, hsc, hprev⟩ := ih i' hi'
      refine ⟨c', by simpa using hget, hsc, ?_⟩
      intro j hj x hx
      cases j with
      | zero =>
        simp only [List.get?_cons_zero, Option.some_inj] at hx
        rw [← hx]
        exact lt_of_not_le hs
      | succ k =>
        simp only [List.get?_cons_succ] at hx
        exact hprev k (by omega) x hx

theorem sum_take_mono (l : List ℚ) (h0 : ∀ x ∈ l, 0 ≤ x) {m n : ℕ}
    (hmn : m ≤ n) : (l.take m).sum ≤ (l.take n).sum := by
  have hsplit : l.take n = l.take m ++ (l.drop m).take (n - m) := by
    rw [← List.take_add]
    congr 1
    omega
  rw [hsplit, List.sum_append]
  have hnn : 0 ≤ ((l.drop m).take (n - m)).sum := by
    apply List.sum_nonneg
    intro x hx
    exact h0 x (List.drop_subset _ _ (List.take_subset _ _ hx))
  linarith

theorem sum_map_add_mul (c : ℚ) (f g : PredictionEntry → ℚ)
    (l : List PredictionEntry) :
    (l.map f).sum + c * (l.map g).sum =
      (l.map (fun p => f p + c * g p)).sum := by
  induction l with
  | nil => simp
  | cons p rest ih =>
    simp only [List.map_cons, List.sum_cons]
    rw [← ih]
    ring

/-- C1: for every `ForecastResult` prediction produced by `generate_forecast`,
the clamped bounds are ordered `0 ≤ lower_bound ≤ predicted mean ≤
upper_bound`, on the native prediction-interval path (assuming the library's
`conf_int` rows bracket the predicted mean) and on the Gaussian fallback path
(whose `forecast_std`, a standard deviation, is non-negative). -/
theorem forecast_bounds_ordered (means : List ℚ) (src : IntervalSource)
    (h : match src with
         | IntervalSource.native ci =>
             ∀ mc ∈ means.zip ci, mc.2.1 ≤ mc.1 ∧ mc.1 ≤ mc.2.2
         | IntervalSource.fallback s => 0 ≤ s) :
    ∀ t ∈ forecastBounds means src,
      0 ≤ t.2.1 ∧ t.2.1 ≤ t.1 ∧ t.1 ≤ t.2.2 := by
  cases src with
  | native ci =>
    intro t ht
    simp only [forecastBounds, List.mem_map] at ht
    obtain ⟨mc, hmc, rfl⟩ := ht
    obtain ⟨h1, h2⟩ := h mc hmc
    exact ⟨le_max_right _ _, max_le_max h1 le_rfl, max_le_max h2 le_rfl⟩
  | fallback s =>
    intro t ht
    have hs : (0:ℚ) ≤ s := h
    have hps : (0:ℚ) ≤ (196/100) * s := by positivity
    simp only [forecastBounds, List.mem_map] at ht
    obtain ⟨m, hm, rfl⟩ := ht
    exact ⟨le_max_right _ _, max_le_max (by linarith) le_rfl,
      max_le_max (by linarith) le_rfl⟩

/-- C1 witness: the theorem applied to one concrete native-path prediction
(mean 5, interval `(3, 7)`). -/
theorem forecast_bounds_ordered_witness :
    0 ≤ max (3:ℚ) 0 ∧ max (3:ℚ) 0 ≤ max (5:ℚ) 0 ∧
      max (5:ℚ) 0 ≤ max (7:ℚ) 0 :=
  forecast_bounds_ordered [5] (IntervalSource.native [(3, 7)])
    (by norm_num [List.zip, List.zipWith])
    (max (5:ℚ) 0, max (3:ℚ) 0, max (7:ℚ) 0)
    (by norm_num [forecastBounds, List.zip, List.zipWith])

/-- C10: a decodable cached descriptor under `sarimax_model:{product_id}:
{facility_id}` makes `train_sarimax_model` return it unchanged, for every
record set and fitting oracle — in particular it performs no data
preparation, no minimum-data check and no model fitting, and succeeds even
when the records resample to fewer than 30 daily rows. -/
theorem train_cached_descriptor (m : ModelInfo) (pid fid : String)
    (records : List ConsumptionData) (fit : SarimaxCand → Option ℚ)
    (hf : Option (List ℚ)) :
    train_sarimax_model (CacheRead.ok m) pid fid records fit hf =
      Except.ok m :=
  rfl

/-- C3 counterexample: in `generate_forecast`, an undecodable payload under
the model-descriptor key is not treated like a miss: it raises
`ValueError("Invalid model info in cache")`, while a genuine miss raises
`ValueError("No trained model found ...")`. -/
theorem cache_corruption_counterexample :
    generate_forecast CacheRead.miss CacheRead.corrupt
        (fun _ => Except.ok ⟨"p", "f", 30, [], Option.none⟩) =
      Except.error ForecastError.invalidModelInfo ∧
    generate_forecast CacheRead.miss CacheRead.miss
        (fun _ => Except.ok ⟨"p", "f", 30, [], Option.none⟩) =
      Except.error ForecastError.modelNotFound ∧
    (Except.error ForecastError.invalidModelInfo :
        Except ForecastError ForecastData) ≠
      Except.error ForecastError.modelNotFound := by
  exact ⟨rfl, rfl, fun h => ForecastError.noConfusion (Except.error.inj h)⟩

/-- C3 (amended): the training operation's model-cache read and the
forecasting operation's forecast-result cache read treat an undecodable
payload exactly like a miss, but the forecasting operation's
model-descriptor read fails with `ValueError("Invalid model info in cache")`
on an undecodable payload instead of treating it as a miss. -/
theorem cache_corruption_handling (pid fid : String)
    (records : List ConsumptionData) (fit : SarimaxCand → Option ℚ)
    (hf : Option (List ℚ)) (mc : CacheRead ModelInfo)
    (compute : ModelInfo → Except ForecastError ForecastData) :
    (train_sarimax_model CacheRead.corrupt pid fid records fit hf =
       train_sarimax_model CacheRead.miss pid fid records fit hf) ∧
    (generate_forecast CacheRead.corrupt mc compute =
       generate_forecast CacheRead.miss mc compute) ∧
    (generate_forecast CacheRead.miss CacheRead.corrupt compute =
       Except.error ForecastError.invalidModelInfo) :=
  ⟨rfl, rfl, rfl⟩


/-- C4 counterexample: 10 records on consecutive days resample to 10 < 30
daily rows, yet with a decodable cached descriptor the training call
succeeds and returns a descriptor instead of failing with
`InsufficientDataError`. -/
theorem train_insufficient_counterexample :
    (dailyQuantities recs10).length < 30 ∧
    train_sarimax_model (CacheRead.ok m0) "p" "f" recs10
        (fun _ => Option.none) Option.none = Except.ok m0 := by
  constructor
  · norm_num [dailyQuantities, recs10, mkRec, List.range_succ, List.filter]
  · rfl

/-- C4 (amended): every training call whose model-cache read is not a
decodable hit and whose records resample to fewer than 30 daily rows fails
with `InsufficientDataError` (and so returns no descriptor). -/
theorem train_insufficient_data (cached : CacheRead ModelInfo)
    (pid fid : String) (records : List ConsumptionData)
    (fit : SarimaxCand → Option ℚ) (hf : Option (List ℚ))
    (hcache : cached = CacheRead.miss ∨ cached = CacheRead.corrupt)
    (hlen : (dailyQuantities records).length < 30) :
    train_sarimax_model cached pid fid records fit hf =
      Except.error TrainError.insufficientData := by
  rcases hcache with rfl | rfl <;> simp [train_sarimax_model, hlen]

/-- C4 witness: the amended theorem applied to a cache miss and 10 records
on 10 consecutive days. -/
theorem train_insufficient_data_witness :
    train_sarimax_model CacheRead.miss "p" "f" recs10
        (fun _ => Option.none) Option.none =
      Except.error TrainError.insufficientData :=
  train_insufficient_data CacheRead.miss "p" "f" recs10
    (fun _ => Option.none) Option.none (Or.inl rfl)
    (by norm_num [dailyQuantities, recs10, mkRec, List.range_succ, List.filter])


/-- C5 counterexample: with a decodable cached descriptor, a training call
for which no candidate converges does not fail with `ModelFittingError` —
it returns the cached descriptor, whose parameters are not even in the
candidate set. -/
theorem train_grid_counterexample :
    train_sarimax_model (CacheRead.ok m_weird) "p" "f" recs30
        (fun _ => Option.none) Option.none = Except.ok m_weird ∧
    (∀ c ∈ param_combinations,
        (fun _ : SarimaxCand => (Option.none : Option ℚ)) c = Option.none) ∧
    Except.ok m_weird ≠
      (Except.error TrainError.modelFitting : Except TrainError ModelInfo) :=
  ⟨rfl, fun _ _ => rfl, fun h => Except.noConfusion h⟩

/-- C5 (amended): for every training call whose model-cache read is not a
decodable hit (over the fixed candidate grid): if no candidate converges the
call fails with `ModelFittingError`, and if it returns a descriptor then the
descriptor's `(order, seasonal_order)` is a candidate that converged whose
AIC is minimal among all candidates that converged. -/
theorem train_grid_selection (cached : CacheRead ModelInfo)
    (pid fid : String) (records : List ConsumptionData)
    (fit : SarimaxCand → Option ℚ) (hf : Option (List ℚ))
    (hcache : cached = CacheRead.miss ∨ cached = CacheRead.corrupt)
    (hlen : ¬ (dailyQuantities records).length < 30) :
    ((∀ c ∈ param_combinations, fit c = Option.none) →
        train_sarimax_model cached pid fid records fit hf =
          Except.error TrainError.modelFitting) ∧
    (∀ info, train_sarimax_model cached pid fid records fit hf =
          Except.ok info →
        info.best_params ∈ param_combinations ∧
        fit info.best_params = some info.aic ∧
        ∀ c ∈ param_combinations, ∀ a, fit c = some a → info.aic ≤ a) := by
  rcases hcache with rfl | rfl <;>
  · constructor
    · intro hall
      have hgs : gridSearch fit = Option.none :=
        (searchLoop_eq_none_iff fit param_combinations Option.none).mpr
          ⟨rfl, hall⟩
      simp [train_sarimax_model, hlen, hgs]
    · intro info hinfo
      cases hgs : gridSearch fit with
      | none => simp [train_sarimax_model, hlen, hgs] at hinfo
      | some pa =>
        obtain ⟨params, aic⟩ := pa
        simp only [train_sarimax_model, hlen, if_false, hgs] at hinfo
        obtain ⟨h1, h2, h3⟩ :=
          searchLoop_eq_some fit param_combinations Option.none params aic hgs
        rcases h1 with h1 | ⟨hm, hfit⟩
        · cases h1
        · injection hinfo with hinfo'
          rw [← hinfo']
          exact ⟨hm, hfit, h3⟩

/-- C5 witness: the amended theorem applied to a cache miss, 30 days of
records, and a fitting oracle that gives every candidate AIC 10. -/
theorem train_grid_selection_witness :
    ((∀ c ∈ param_combinations,
        (fun _ : SarimaxCand => some (10:ℚ)) c = Option.none) →
      train_sarimax_model CacheRead.miss "p" "f" recs30
          (fun _ : SarimaxCand => some (10:ℚ)) Option.none =
        Except.error TrainError.modelFitting) ∧
    (∀ info, train_sarimax_model CacheRead.miss "p" "f" recs30
          (fun _ : SarimaxCand => some (10:ℚ)) Option.none = Except.ok info →
        info.best_params ∈ param_combinations ∧
        (fun _ : SarimaxCand => some (10:ℚ)) info.best_params =
          some info.aic ∧
        ∀ c ∈ param_combinations, ∀ a,
          (fun _ : SarimaxCand => some (10:ℚ)) c = some a → info.aic ≤ a) :=
  train_grid_selection CacheRead.miss "p" "f" recs30
    (fun _ => some 10) Option.none (Or.inl rfl)
    (by norm_num [dailyQuantities, recs30, mkRec, List.range_succ, List.filter])

/-- C2 counterexample: a successful training call (30 days of constant
consumption 1, holdout forecast constantly 300) records
`accuracy_score = 100 - MAPE = -199`, which lies outside `[0, 100]`: the
code never clamps the score. -/
theorem train_accuracy_counterexample :
    train_sarimax_model CacheRead.miss "p" "f" recs30 (fun _ => some 10)
        (some (List.replicate 6 300)) =
      Except.ok { product_id := "p", facility_id := "f",
                  best_params := ((1,1,1),(1,1,1,7)), aic := 10,
                  accuracy_score := -199, training_data_points := 30 } ∧
    ¬((0:ℚ) ≤ -199 ∧ (-199:ℚ) ≤ 100) := by
  constructor
  · norm_num [train_sarimax_model, dailyQuantities, recs30, mkRec, gridSearch,
      searchLoop, param_combinations, mape, float64Eps, List.range_succ,
      List.filter, List.zip, List.zipWith, abs]
  · norm_num

/-- C2 (amended): for every training call that actually trains (no decodable
cached descriptor) and for which some candidate converges: when the holdout
forecast succeeds the descriptor's `accuracy_score` equals
`100 - MAPE(holdout_actuals, holdout_forecast)` with no clamping (it may lie
outside `[0, 100]`), and when the holdout forecast step fails the
`accuracy_score` is `0.0` and training still succeeds. -/
theorem train_accuracy_score (cached : CacheRead ModelInfo)
    (pid fid : String) (records : List ConsumptionData)
    (fit : SarimaxCand → Option ℚ)
    (hcache : cached = CacheRead.miss ∨ cached = CacheRead.corrupt)
    (hlen : ¬ (dailyQuantities records).length < 30)
    (hfit : gridSearch fit ≠ Option.none) :
    (∀ preds info,
        train_sarimax_model cached pid fid records fit (some preds) =
          Except.ok info →
        info.accuracy_score =
          100 - mape ((dailyQuantities records).drop
            ((dailyQuantities records).length * 8 / 10)) preds) ∧
    (∃ info,
        train_sarimax_model cached pid fid records fit Option.none =
          Except.ok info ∧ info.accuracy_score = 0) := by
  cases hgs : gridSearch fit with
  | none => exact absurd hgs hfit
  | some pa =>
    obtain ⟨params, aic⟩ := pa
    rcases hcache with rfl | rfl <;>
    · constructor
      · intro preds info hinfo
        simp only [train_sarimax_model, hlen, if_false, hgs] at hinfo
        injection hinfo with hinfo'
        rw [← hinfo']
      · refine ⟨{ product_id := pid, facility_id := fid, best_params := params,
                  aic := aic, accuracy_score := 0,
                  training_data_points := (dailyQuantities records).length },
            ?_, rfl⟩
        simp only [train_sarimax_model, hlen, if_false, hgs]

/-- C2 witness: the amended theorem applied to a cache miss, 30 days of
records and a fitting oracle giving every candidate AIC 10. -/
theorem train_accuracy_score_witness :
    (∀ preds info,
        train_sarimax_model CacheRead.miss "p" "f" recs30
            (fun _ : SarimaxCand => some (10:ℚ)) (some preds) =
          Except.ok info →
        info.accuracy_score =
          100 - mape ((dailyQuantities recs30).drop
            ((dailyQuantities recs30).length * 8 / 10)) preds) ∧
    (∃ info,
        train_sarimax_model CacheRead.miss "p" "f" recs30
            (fun _ : SarimaxCand => some (10:ℚ)) Option.none =
          Except.ok info ∧ info.accuracy_score = 0) :=
  train_accuracy_score CacheRead.miss "p" "f" recs30 (fun _ => some 10)
    (Or.inl rfl)
    (by norm_num [dailyQuantities, recs30, mkRec, List.range_succ, List.filter])
    (by intro h; norm_num [gridSearch, searchLoop, param_combinations] at h;
        exact Option.noConfusion h)

/-- C6 counterexample: a forecast whose single prediction has mean `0.001`
yields a returned `lead_time_consumption` of `0` (rounded to two decimals),
not the exact sum `0.001` of the predicted means. -/
theorem reorder_point_rounding_counterexample :
    (calculate_optimal_reorder_point "p" "f"
        [⟨1/1000, 0, 0⟩] 1).lead_time_consumption = 0 ∧
    (([(⟨1/1000, 0, 0⟩ : PredictionEntry)].take 1).map
        (·.predicted_consumption)).sum = 1/1000 ∧
    (0 : ℚ) ≠ 1/1000 := by
  refine ⟨?_, by norm_num, by norm_num⟩
  norm_num [calculate_optimal_reorder_point, pyRound2, roundHalfEven,
    ratFloorZ]

/-- C6 (amended): the result of `calculate_optimal_reorder_point` reports,
rounded to two decimal places (Python `round`, ties to even):
`lead_time_consumption` = sum of predicted means over the first
`lead_time_days` entries, `safety_stock` = `1.65 ×` the sum over the same
entries of `(upper_bound - lower_bound) / 3.92`, and `reorder_point` = the
unrounded lead-time consumption plus the unrounded safety stock; and
`service_level = 95`. -/
theorem reorder_point_formulas (pid fid : String)
    (predictions : List PredictionEntry) (lead_time_days : ℕ) :
    (calculate_optimal_reorder_point pid fid predictions
        lead_time_days).lead_time_consumption =
      pyRound2 (((predictions.take lead_time_days).map
        (·.predicted_consumption)).sum) ∧
    (calculate_optimal_reorder_point pid fid predictions
        lead_time_days).safety_stock =
      pyRound2 ((165/100) * ((predictions.take lead_time_days).map
        (fun p => (p.upper_bound - p.lower_bound) / (392/100))).sum) ∧
    (calculate_optimal_reorder_point pid fid predictions
        lead_time_days).reorder_point =
      pyRound2 ((((predictions.take lead_time_days).map
          (·.predicted_consumption)).sum) +
        (165/100) * ((predictions.take lead_time_days).map
          (fun p => (p.upper_bound - p.lower_bound) / (392/100))).sum) ∧
    (calculate_optimal_reorder_point pid fid predictions
        lead_time_days).service_level = 95 :=
  ⟨rfl, rfl, rfl, rfl⟩

/-- C7: with the per-day forecast predictions held fixed and every
prediction having a non-negative mean and ordered bounds, the returned
`reorder_point` is non-decreasing in `lead_time_days`. -/
theorem reorder_point_monotone (pid fid : String)
    (predictions : List PredictionEntry) (n₁ n₂ : ℕ) (hn : n₁ ≤ n₂)
    (hp : ∀ p ∈ predictions,
        0 ≤ p.predicted_consumption ∧ p.lower_bound ≤ p.upper_bound) :
    (calculate_optimal_reorder_point pid fid predictions n₁).reorder_point ≤
      (calculate_optimal_reorder_point pid fid predictions n₂).reorder_point := by
  have key : ∀ n : ℕ,
      ((predictions.take n).map (·.predicted_consumption)).sum +
        (165/100) * ((predictions.take n).map
          (fun p => (p.upper_bound - p.lower_bound) / (392/100))).sum =
      ((predictions.map (fun p => p.predicted_consumption +
        (165/100) * ((p.upper_bound - p.lower_bound) / (392/100)))).take n).sum := by
    intro n
    rw [sum_map_add_mul, ← List.map_take]
  simp only [calculate_optimal_reorder_point]
  apply pyRound2_mono
  rw [key n₁, key n₂]
  apply sum_take_mono _ _ hn
  intro x hx
  simp only [List.mem_map] at hx
  obtain ⟨p, hp', rfl⟩ := hx
  obtain ⟨h1, h2⟩ := hp p hp'
  have h3 : (0:ℚ) ≤ (165/100) * ((p.upper_bound - p.lower_bound) / (392/100)) := by
    apply mul_nonneg (by norm_num)
    apply div_nonneg (by linarith) (by norm_num)
  linarith

/-- C7 witness: the theorem applied to a concrete two-day forecast with
`lead_time_days` 1 and 2. -/
theorem reorder_point_monotone_witness :
    (calculate_optimal_reorder_point "p" "f"
        [⟨1, 0, 2⟩, ⟨3, 1, 2⟩] 1).reorder_point ≤
      (calculate_optimal_reorder_point "p" "f"
        [⟨1, 0, 2⟩, ⟨3, 1, 2⟩] 2).reorder_point :=
  reorder_point_monotone "p" "f" [⟨1, 0, 2⟩, ⟨3, 1, 2⟩] 1 2 (by norm_num)
    (by intro p hp
        simp only [List.mem_cons, List.not_mem_nil, or_false] at hp
        rcases hp with rfl | rfl <;> norm_num)

/-- C8: the reported depletion date is the date of the first prediction at
which the running cumulative sum of predicted consumption reaches or exceeds
the current-stock baseline, and it is `None` when the cumulative sum never
reaches the baseline within the horizon. -/
theorem depletion_date_spec (predicted_consumption : List ℚ)
    (forecast_dates : List String) (current_stock : ℚ)
    (hlen : forecast_dates.length = predicted_consumption.length) :
    (∀ d, calculate_depletion_date predicted_consumption forecast_dates
        current_stock = some d →
      ∃ i, i < predicted_consumption.length ∧
        forecast_dates.get? i = some d ∧
        current_stock ≤ (predicted_consumption.take (i+1)).sum ∧
        ∀ j < i, (predicted_consumption.take (j+1)).sum < current_stock) ∧
    (calculate_depletion_date predicted_consumption forecast_dates
        current_stock = Option.none →
      ∀ i < predicted_consumption.length,
        (predicted_consumption.take (i+1)).sum < current_stock) := by
  have hlen2 : (cumulativeList predicted_consumption).length =
      predicted_consumption.length := by simp [cumulativeList]
  constructor
  · intro d hd
    cases hfc : firstCrossing current_stock
        (cumulativeList predicted_consumption) with
    | none => simp [calculate_depletion_date, hfc] at hd
    | some i =>
      simp only [calculate_depletion_date, hfc] at hd
      obtain ⟨c, hget, hsc, hprev⟩ := firstCrossing_eq_some _ _ _ hfc
      have hi' : i < (cumulativeList predicted_consumption).length := by
        by_contra hna
        rw [List.get?_eq_none.mpr (le_of_not_lt hna)] at hget
        cases hget
      have hi : i < predicted_consumption.length := by omega
      have hceq : (cumulativeList predicted_consumption).get? i =
          some ((predicted_consumption.take (i+1)).sum) := by
        rw [cumulativeList, List.get?_map, List.get?_range hi]
        rfl
      rw [hceq] at hget
      injection hget with hget'
      refine ⟨i, hi, hd, by rw [hget']; exact hsc, ?_⟩
      intro j hj
      have hjeq : (cumulativeList predicted_consumption).get? j =
          some ((predicted_consumption.take (j+1)).sum) := by
        rw [cumulativeList, List.get?_map, List.get?_range (by omega)]
        rfl
      exact hprev j hj _ hjeq
  · intro hnone i hi
    cases hfc : firstCrossing current_stock
        (cumulativeList predicted_consumption) with
    | some i' =>
      exfalso
      simp only [calculate_depletion_date, hfc] at hnone
      obtain ⟨c, hget, -, -⟩ := firstCrossing_eq_some _ _ _ hfc
      have hi' : i' < (cumulativeList predicted_consumption).length := by
        by_contra hna
        rw [List.get?_eq_none.mpr (le_of_not_lt hna)] at hget
        cases hget
      rw [List.get?_eq_none] at hnone
      omega
    | none =>
      have hall := firstCrossing_eq_none _ _ hfc
      apply hall
      rw [cumulativeList]
      exact List.mem_map_of_mem _ (List.mem_range.mpr hi)

/-- C8 witness: the theorem applied to a two-day forecast `[60, 50]` with
stock baseline 100 (the cumulative sum crosses 100 on the second day). -/
theorem depletion_date_spec_witness :
    (∀ d, calculate_depletion_date [60, 50] ["2025-01-01", "2025-01-02"]
        100 = some d →
      ∃ i, i < ([(60:ℚ), 50]).length ∧
        (["2025-01-01", "2025-01-02"]).get? i = some d ∧
        (100:ℚ) ≤ (([(60:ℚ), 50]).take (i+1)).sum ∧
        ∀ j < i, (([(60:ℚ), 50]).take (j+1)).sum < 100) ∧
    (calculate_depletion_date [60, 50] ["2025-01-01", "2025-01-02"] 100 =
        Option.none →
      ∀ i < ([(60:ℚ), 50]).length,
        (([(60:ℚ), 50]).take (i+1)).sum < 100) :=
  depletion_date_spec [60, 50] ["2025-01-01", "2025-01-02"] 100 (by norm_num)

/-- C9 (code bug): `generate_sustainability_metrics` returns all-zero totals
on the empty record set and guards the per-employee division, but it does
not return for every record set — a record whose nullable `employee_count`
is `NULL` makes `float(str(record.employee_count) or 0)` evaluate
`float("None")`, which raises `ValueError` instead of defaulting to 0. -/
theorem sustainability_metrics_evaluation :
    generate_sustainability_metrics [] = Except.ok
      { total_consumption := 0, consumption_per_employee := 0,
        waste_reduction_opportunity := 0, potential_savings_percentage := 15,
        carbon_footprint_kg := 0, sustainability_score := 785/10 } ∧
    generate_sustainability_metrics
        [{ consumption_date := 0, quantity_consumed := 5,
           employee_count := Option.none, special_events := Option.none }] =
      Except.error "could not convert string to float: None" :=
  ⟨rfl, rfl⟩
